import Mathlib

/-!
Shallow embedding of the Cloudinary interview-test demo
(src/unnamed/part_000, with the two near-duplicate variants in
src/script.js embedded separately where a claim cites them).

The embedding follows the JavaScript source:
* the mutable `state` object becomes the structure `ToggleState`;
* the `.btn-group` click handler becomes the `step` function over an
  `Event` datatype (reset, text click with its dialog outcome, generic
  flag click); the dialog outcome is an environment choice, so it is a
  parameter of the text-click event;
* `buildAsset` becomes `buildSteps` (the `steps` array of transformation
  objects), `buildChain` (the full ordered list of transformations added
  to the asset) and `buildAsset` (the returned descriptor);
* DOM calls (`setButtonActive`, class toggling, rendering) carry no state
  that the claims mention; the only observable the claims need is whether
  a rebuild+render cycle (`updateImage`) runs, which `step` returns as a
  Bool alongside the new state.
-/

namespace CloudinaryDemo

/-- The application `state` object of src/unnamed/part_000 lines 45-58:
seven boolean toggles plus the saved overlay text and colour. -/
structure ToggleState where
  text : Bool
  square : Bool
  toon : Bool
  sepia : Bool
  gray : Bool
  video : Bool
  enhance : Bool
  textContent : String
  textColor : String
deriving DecidableEq, Repr

/-- The startup defaults of the `state` object (part_000 lines 45-58). -/
def initialState : ToggleState :=
  { text := false, square := false, toon := false, sepia := false
    gray := false, video := false, enhance := false
    textContent := "Hello World!", textColor := "#ffffff" }

/-- The `data-effect` keys handled by the generic-toggle branch of the
click handler (everything except "text", which has its own branch, and
the reset action). -/
inductive Flag where
  | square | toon | sepia | gray | video | enhance
deriving DecidableEq, Repr

/-- Read `state[effectKey]` for a generic flag. -/
def getFlag (k : Flag) (s : ToggleState) : Bool :=
  match k with
  | .square => s.square
  | .toon => s.toon
  | .sepia => s.sepia
  | .gray => s.gray
  | .video => s.video
  | .enhance => s.enhance

/-- Write `state[effectKey] = b` for a generic flag. -/
def setFlag (k : Flag) (b : Bool) (s : ToggleState) : ToggleState :=
  match k with
  | .square => { s with square := b }
  | .toon => { s with toon := b }
  | .sepia => { s with sepia := b }
  | .gray => { s with gray := b }
  | .video => { s with video := b }
  | .enhance => { s with enhance := b }

/-- First exclusivity rule (part_000 lines 284-291): if the clicked key
is `video` and its new value `next` is true, force sepia, toon, gray and
enhance to false.  (The source guards each assignment with
`if (state[k])`, which only matters for the DOM call; the resulting
state is the same.) -/
def applyVideoExclusivity (k : Flag) (next : Bool) (s : ToggleState) : ToggleState :=
  if k = .video ∧ next then
    { s with sepia := false, toon := false, gray := false, enhance := false }
  else s

/-- Second exclusivity rule (part_000 lines 294-299): if the clicked key
is one of sepia, toon, gray, enhance and its new value `next` is true,
force video to false. -/
def applyEffectExclusivity (k : Flag) (next : Bool) (s : ToggleState) : ToggleState :=
  if (k = .sepia ∨ k = .toon ∨ k = .gray ∨ k = .enhance) ∧ next then
    { s with video := false }
  else s

/-- The generic-toggle branch of the click handler (part_000 lines
277-301): flip the flag, then run the two exclusivity rules in source
order. -/
def clickFlag (k : Flag) (s : ToggleState) : ToggleState :=
  let next := ! getFlag k s
  let s1 := setFlag k next s
  applyEffectExclusivity k next (applyVideoExclusivity k next s1)

/-- Does the character list start with the given list?  (Helper for the
JS `String.prototype.startsWith` calls.) -/
def listStartsWith : List Char → List Char → Bool
  | _, [] => true
  | [], _ :: _ => false
  | c :: s, p :: ps => c = p && listStartsWith s ps

/-- JS `s.startsWith(pre)`. -/
def strStartsWith (s pre : String) : Bool :=
  listStartsWith s.data pre.data

/-- JS `s.slice(1)`: the string with its first character removed. -/
def strSlice1 (s : String) : String :=
  String.mk (s.data.drop 1)

/-- JS `s.trim()`: remove leading and trailing whitespace. -/
def strTrim (s : String) : String :=
  String.mk (((s.data.dropWhile Char.isWhitespace).reverse.dropWhile
    Char.isWhitespace).reverse)

/-- What `openTextDialog` resolves with on the OK click (part_000 line
234): the dialog text trimmed, and the colour input's value. -/
structure DialogResult where
  text : String
  color : String
deriving DecidableEq, Repr

/-- The OK-button resolution of `openTextDialog` (part_000 line 234):
`resolve(\x7b text: txt.value.trim(), color: col.value \x7d)`. -/
def confirmDialog (rawText colorValue : String) : DialogResult :=
  { text := strTrim rawText, color := colorValue }

/-- The text branch of the click handler (part_000 lines 264-275).  When
`state.text` is false the dialog outcome decides: `none` (cancel or any
other dismissal) returns with no state change and no rebuild; `some r`
saves `r.text` when non-empty (JS truthiness of strings), saves `r.color`
when non-empty, then flips `state.text`.  When `state.text` is true no
dialog opens and the flag just flips off.  The Bool is whether
`updateImage()` runs. -/
def clickText (s : ToggleState) (dialog : Option DialogResult) : ToggleState × Bool :=
  if s.text then
    ({ s with text := false }, true)
  else
    match dialog with
    | none => (s, false)
    | some r =>
        let s1 := if r.text ≠ "" then { s with textContent := r.text } else s
        let s2 := if r.color ≠ "" then { s1 with textColor := r.color } else s1
        ({ s2 with text := true }, true)

/-- `resetToggles` (part_000 lines 73-79): every key of the state object
except `textContent` and `textColor` is set to false. -/
def resetToggles (s : ToggleState) : ToggleState :=
  { text := false, square := false, toon := false, sepia := false
    gray := false, video := false, enhance := false
    textContent := s.textContent, textColor := s.textColor }

/-- A button-click event delivered to the `.btn-group` handler: the reset
action, a click on the text button (together with how the dialog, if it
opens, resolves), or a click on one of the other effect buttons. -/
inductive Event where
  | reset
  | textClick (dialog : Option DialogResult)
  | flagClick (k : Flag)
deriving DecidableEq, Repr

/-- One dispatch of the `.btn-group` click handler (part_000 lines
247-302).  Returns the new state and whether a rebuild+render cycle
(`updateImage`) runs. -/
def step (s : ToggleState) : Event → ToggleState × Bool
  | .reset => (resetToggles s, true)
  | .textClick d => clickText s d
  | .flagClick k => (clickFlag k s, true)

/-- States reachable from the startup defaults by button clicks. -/
inductive Reachable : ToggleState → Prop where
  | init : Reachable initialState
  | next {s : ToggleState} (e : Event) : Reachable s → Reachable (step s e).1

/-- The exclusivity invariant: video never holds together with any of
toon, sepia, gray, enhance. -/
def Exclusive (s : ToggleState) : Prop :=
  ¬ (s.video = true ∧ (s.toon = true ∨ s.sepia = true ∨ s.gray = true ∨ s.enhance = true))

instance (s : ToggleState) : Decidable (Exclusive s) := by
  unfold Exclusive; infer_instance

lemma exclusive_resetToggles (s : ToggleState) : Exclusive (resetToggles s) := by
  simp [Exclusive, resetToggles]

lemma exclusive_clickText (s : ToggleState) (d : Option DialogResult)
    (h : Exclusive s) : Exclusive (clickText s d).1 := by
  obtain ⟨t, sq, tn, sp, gr, vd, en, tc, tcol⟩ := s
  unfold Exclusive at h ⊢
  rcases d with _ | r <;> cases t <;>
    simp only [clickText] <;> split_ifs <;> simp_all

lemma exclusive_clickFlag (s : ToggleState) (k : Flag)
    (h : Exclusive s) : Exclusive (clickFlag k s) := by
  obtain ⟨t, sq, tn, sp, gr, vd, en, tc, tcol⟩ := s
  unfold Exclusive at h ⊢
  cases k <;> cases vd <;> cases tn <;> cases sp <;> cases gr <;> cases en <;>
    simp_all [clickFlag, getFlag, setFlag, applyVideoExclusivity,
      applyEffectExclusivity]

lemma exclusive_step (s : ToggleState) (e : Event)
    (h : Exclusive s) : Exclusive (step s e).1 := by
  cases e with
  | reset => exact exclusive_resetToggles s
  | textClick d => exact exclusive_clickText s d h
  | flagClick k => exact exclusive_clickFlag s k h

/-- C1. Exclusivity invariant: in every state reachable from the startup
defaults via button-click transitions (toggle, text dialog, reset),
`video` is never true at the same time as any of `toon`, `sepia`,
`gray`, `enhance`. -/
theorem reachable_exclusive (s : ToggleState) (h : Reachable s) :
    ¬ (s.video = true ∧
       (s.toon = true ∨ s.sepia = true ∨ s.gray = true ∨ s.enhance = true)) := by
  have inv : Exclusive s := by
    induction h with
    | init => simp [Exclusive, initialState]
    | next e _ ih => exact exclusive_step _ e ih
  exact inv

/-- C1 witness: the invariant instantiated at the initial state itself. -/
theorem reachable_exclusive_witness :
    ¬ (initialState.video = true ∧
       (initialState.toon = true ∨ initialState.sepia = true ∨
        initialState.gray = true ∨ initialState.enhance = true)) :=
  reachable_exclusive initialState Reachable.init

/-- UTF-8 bytes of a code point, as plain naturals. -/
def utf8Bytes (n : Nat) : List Nat :=
  if n < 128 then [n]
  else if n < 2048 then [192 + n / 64, 128 + n % 64]
  else if n < 65536 then [224 + n / 4096, 128 + (n / 64) % 64, 128 + n % 64]
  else [240 + n / 262144, 128 + (n / 4096) % 64, 128 + (n / 64) % 64, 128 + n % 64]

/-- Upper-case hex digit for a value below 16. -/
def hexDigit (n : Nat) : Char :=
  if n < 10 then Char.ofNat (48 + n) else Char.ofNat (55 + n)

/-- Percent-encoding of one byte, upper-case hex as in JS. -/
def percentEncodeByte (b : Nat) : String :=
  String.mk [Char.ofNat 37, hexDigit (b / 16), hexDigit (b % 16)]

/-- The characters `encodeURIComponent` leaves unescaped: ASCII
alphanumerics and - _ . ! ~ * ' ( ). -/
def isUnescapedChar (c : Char) : Bool :=
  c.isAlphanum || c = '-' || c = '_' || c = '.' || c = '!' || c = '~' ||
    c = '*' || c.toNat = 39 || c = '(' || c = ')'

/-- JavaScript `encodeURIComponent`: unescaped characters pass through,
every other character is replaced by the percent-encoding of its UTF-8
bytes. -/
def encodeURIComponent (s : String) : String :=
  s.data.foldl (fun acc c =>
    if isUnescapedChar c then acc.push c
    else acc ++ String.join ((utf8Bytes c.toNat).map percentEncodeByte)) ""

/-- `toCloudinaryColor` (part_000 lines 82-85):
`if (value && value.startsWith("#")) return "rgb:" + value.slice(1);
return value || "white";`.  (The second variant of script.js inlines the
same expression at lines 343-345.) -/
def toCloudinaryColor (value : String) : String :=
  if value ≠ "" ∧ strStartsWith value "#" then "rgb:" ++ strSlice1 value
  else if value ≠ "" then value else "white"

/-- One transformation instruction handed to the asset: a raw
transformation string (`addTransformation`), the `fill` resize, or one of
the step objects pushed onto the `steps` array (`effect`, text `overlay`
with its colour, `layer_apply` composition). -/
inductive Instr where
  | raw (t : String)
  | resizeFill (w h : Nat)
  | effect (name : String)
  | overlay (source : String) (color : String)
  | layerApply (gravity : String) (y : Nat)
deriving DecidableEq, Repr

/-- Is an instruction one of the effect steps? -/
def isEffectInstr : Instr → Bool
  | .effect _ => true
  | _ => false

/-- Is an instruction one of the two text-overlay steps? -/
def isTextInstr : Instr → Bool
  | .overlay _ _ => true
  | .layerApply _ _ => true
  | _ => false

/-- A frame size object such as FRAME_WIDE (part_000 lines 30-31). -/
structure Frame where
  w : Nat
  h : Nat
deriving DecidableEq, Repr

/-- Frame used when `square` is off (part_000 line 30). -/
def FRAME_WIDE : Frame := ⟨500, 333⟩

/-- Frame used when `square` is on (part_000 line 31). -/
def FRAME_SQUARE : Frame := ⟨333, 333⟩

/-- Frame selection in `buildAsset` (part_000 lines 98-99). -/
def frameOf (s : ToggleState) : Frame :=
  if s.square then FRAME_SQUARE else FRAME_WIDE

/-- The effect steps pushed onto the `steps` array, in source order
(part_000 lines 120-123). -/
def effectSteps (s : ToggleState) : List Instr :=
  (if s.enhance then [Instr.effect "enhance"] else []) ++
  (if s.toon then [Instr.effect "cartoonify:20"] else []) ++
  (if s.sepia then [Instr.effect "sepia"] else []) ++
  (if s.gray then [Instr.effect "grayscale"] else [])

/-- The two text-overlay steps (part_000 lines 127-135). -/
def textSteps (s : ToggleState) : List Instr :=
  if s.text then
    [Instr.overlay ("text:Arial_34_bold:" ++ encodeURIComponent s.textContent)
       (toCloudinaryColor s.textColor),
     Instr.layerApply "south" 10]
  else []

/-- The `steps` array built by `buildAsset` in part_000 (lines 115-135):
effects first, then the text overlay. -/
def buildSteps (s : ToggleState) : List Instr :=
  effectSteps s ++ textSteps s

/-- Every transformation added to the asset by `buildAsset` in part_000,
in order (lines 104-140): `f_mp4` and the zoompan when `video` is on,
then the fill resize, then the `steps` array. -/
def buildChain (s : ToggleState) : List Instr :=
  (if s.video then [Instr.raw "f_mp4"] else []) ++
  (if s.video then [Instr.raw "e_zoompan:from_(g_auto;zoom_3.2);du_10;fps_30"] else []) ++
  [Instr.resizeFill (frameOf s).w (frameOf s).h] ++
  buildSteps s

/-- Modelled from the spec: the Cloudinary SDK URL rendering
(`asset.toURL()`) is an external collaborator whose internals are out of
scope; the spec only requires that the service deterministically maps the
ordered instruction list to a fetchable URL, so one instruction is
rendered to one URL component here. -/
def renderInstr : Instr → String
  | .raw t => t
  | .resizeFill w h => "c_fill,w_" ++ toString w ++ ",h_" ++ toString h
  | .effect n => "e_" ++ n
  | .overlay src c => "l_" ++ src ++ ",co_" ++ c
  | .layerApply g y => "fl_layer_apply,g_" ++ g ++ ",y_" ++ toString y

/-- Modelled from the spec: the deterministic URL for the current chain
(spec section 6; the SDK encoding internals are out of scope). -/
def assetUrl (s : ToggleState) : String :=
  "https://res.cloudinary.com/demo/image/upload/" ++
    String.intercalate "/" ((buildChain s).map renderInstr) ++ "/sample"

/-- The descriptor returned by `buildAsset` (part_000 lines 142-146):
`\x7b type, url, width \x7d`. -/
structure AssetDescriptor where
  type : String
  url : String
  width : Nat
deriving DecidableEq, Repr

/-- `buildAsset`'s return value (part_000 lines 142-146). -/
def buildAsset (s : ToggleState) : AssetDescriptor :=
  { type := if s.video then "video" else "image"
    url := assetUrl s
    width := (frameOf s).w }

/-- A JavaScript object value appearing in the returned descriptor. -/
inductive JsVal where
  | str (s : String)
  | num (n : Nat)
deriving DecidableEq, Repr

/-- The returned object literal of part_000 lines 142-146 viewed as a
JavaScript object: an ordered list of key/value fields.  It has exactly
the keys `type`, `url` and `width`. -/
def buildAssetFields (s : ToggleState) : List (String × JsVal) :=
  [("type", JsVal.str (if s.video then "video" else "image")),
   ("url", JsVal.str (assetUrl s)),
   ("width", JsVal.num (frameOf s).w)]

/-- Text-overlay steps of the first variant in src/script.js (lines
121-128): identical to part_000 except that the overlay colour is
`state.textColour` itself, with no conversion applied. -/
def textSteps_v1 (s : ToggleState) : List Instr :=
  if s.text then
    [Instr.overlay ("text:Arial_34_bold:" ++ encodeURIComponent s.textContent)
       s.textColor,
     Instr.layerApply "south" 10]
  else []

/-- The `chain` array of the first variant in src/script.js (lines
110-129): effects first, then the unconverted-colour text overlay. -/
def buildSteps_v1 (s : ToggleState) : List Instr :=
  effectSteps s ++ textSteps_v1 s

/-- Text-overlay steps of the second variant in src/script.js (lines
341-351): overlay text falls back to "Hello Cloudinary" when empty, the
colour conversion is inlined (same expression as `toCloudinaryColor`). -/
def textSteps_v2 (s : ToggleState) : List Instr :=
  if s.text then
    [Instr.overlay ("text:Arial_34_bold:" ++
        encodeURIComponent (if s.textContent ≠ "" then s.textContent else "Hello Cloudinary"))
       (toCloudinaryColor s.textColor),
     Instr.layerApply "south" 10]
  else []

/-- The `steps` array of the second variant in src/script.js (lines
338-357): the text-overlay steps are pushed FIRST (lines 341-351) and the
effect steps after them (lines 354-357) — the opposite order to part_000
and to the first variant. -/
def buildSteps_v2 (s : ToggleState) : List Instr :=
  textSteps_v2 s ++ effectSteps s

/-- The fixed effect order of part_000 lines 120-123. -/
def canonicalEffects : List Instr :=
  [Instr.effect "enhance", Instr.effect "cartoonify:20",
   Instr.effect "sepia", Instr.effect "grayscale"]

/-- The state with all four still-image effects enabled. -/
def allEffectsState : ToggleState :=
  { initialState with toon := true, sepia := true, gray := true, enhance := true }

/-- C2. Fixed effect ordering: the effect instructions emitted by
`buildSteps` are exactly the canonical list `enhance, cartoonify:20,
sepia, grayscale` filtered by the enabled flags — so any enabled subset
appears in that relative order, and when gray, toon, sepia and enhance
are all enabled the list is exactly the canonical one. -/
theorem buildSteps_effect_order (s : ToggleState) :
    (buildSteps s).filter isEffectInstr =
      (if s.enhance then [Instr.effect "enhance"] else []) ++
      (if s.toon then [Instr.effect "cartoonify:20"] else []) ++
      (if s.sepia then [Instr.effect "sepia"] else []) ++
      (if s.gray then [Instr.effect "grayscale"] else []) ∧
    List.Sublist ((buildSteps s).filter isEffectInstr) canonicalEffects ∧
    (s.gray = true → s.toon = true → s.sepia = true → s.enhance = true →
      (buildSteps s).filter isEffectInstr = canonicalEffects) := by
  obtain ⟨t, sq, tn, sp, gr, vd, en, tc, tcol⟩ := s
  refine ⟨?_, ?_, ?_⟩ <;>
    cases en <;> cases tn <;> cases sp <;> cases gr <;> cases t <;>
      simp [buildSteps, effectSteps, textSteps, isEffectInstr,
        canonicalEffects, List.filter]

/-- C2 witness: with all four effects enabled the filtered list is
exactly the canonical order. -/
theorem buildSteps_effect_order_witness :
    (buildSteps allEffectsState).filter isEffectInstr = canonicalEffects :=
  (buildSteps_effect_order allEffectsState).2.2 rfl rfl rfl rfl

/-- A state with the text overlay and grayscale both enabled. -/
def textGrayState : ToggleState :=
  { initialState with text := true, gray := true, textContent := "Hi" }

/-- C3 (code bug in the second variant of src/script.js): with text and
gray enabled, that variant's `buildAsset` pushes the two text-overlay
instructions BEFORE the grayscale effect, while part_000 (whose comment
says the overlay is applied at the end so colours are not changed)
emits them after every effect instruction. -/
theorem buildSteps_v2_text_first :
    buildSteps_v2 textGrayState =
      [Instr.overlay "text:Arial_34_bold:Hi" "rgb:ffffff",
       Instr.layerApply "south" 10,
       Instr.effect "grayscale"] ∧
    buildSteps textGrayState =
      [Instr.effect "grayscale",
       Instr.overlay "text:Arial_34_bold:Hi" "rgb:ffffff",
       Instr.layerApply "south" 10] := by
  constructor <;> rfl

/-- A state with only the text overlay enabled (saved colour is the
default "#ffffff"). -/
def textOnlyState : ToggleState :=
  { initialState with text := true, textContent := "Hi" }

/-- C4 (code bug in the first variant of src/script.js): that variant
uses the stored colour for the overlay unchanged — the hex value
"#ffffff" is emitted as-is — whereas the conversion the claim describes
(part_000's `toCloudinaryColor`, also inlined by the second variant)
maps "#ffffff" to "rgb:ffffff", the empty string to "white", and passes
other strings through unchanged. -/
theorem buildSteps_v1_color_unconverted :
    buildSteps_v1 textOnlyState =
      [Instr.overlay "text:Arial_34_bold:Hi" "#ffffff",
       Instr.layerApply "south" 10] ∧
    buildSteps textOnlyState =
      [Instr.overlay "text:Arial_34_bold:Hi" "rgb:ffffff",
       Instr.layerApply "south" 10] ∧
    toCloudinaryColor "#ffffff" = "rgb:ffffff" ∧
    toCloudinaryColor "" = "white" ∧
    toCloudinaryColor "red" = "red" := by
  refine ⟨rfl, rfl, rfl, rfl, rfl⟩

/-- C5 counterexample: the object returned by `buildAsset` has exactly
the keys `type`, `url` and `width` — it carries no `height` field, so
the descriptor does not carry the frame's height. -/
theorem buildAsset_no_height_field :
    (buildAssetFields initialState).map Prod.fst = ["type", "url", "width"] ∧
    ¬ ("height" ∈ (buildAssetFields initialState).map Prod.fst) := by
  constructor
  · rfl
  · decide

/-- C5 amended: `buildAsset` returns a descriptor carrying the kind
(`type` is "video" or "image"), the url, and the frame's WIDTH — 333
when square and 500 otherwise; the frame's height (always 333) is used
in the resize instruction of the transformation chain but is not a field
of the descriptor. -/
theorem buildAsset_descriptor (s : ToggleState) :
    (buildAsset s).type = (if s.video then "video" else "image") ∧
    (buildAsset s).url = assetUrl s ∧
    (buildAsset s).width = (if s.square then 333 else 500) ∧
    frameOf s = (if s.square then Frame.mk 333 333 else Frame.mk 500 333) ∧
    Instr.resizeFill (if s.square then 333 else 500) 333 ∈ buildChain s := by
  obtain ⟨t, sq, tn, sp, gr, vd, en, tc, tcol⟩ := s
  cases sq <;> cases vd <;>
    simp [buildAsset, frameOf, FRAME_SQUARE, FRAME_WIDE, buildChain,
      List.mem_append]

/-- C6. Reset postcondition: after the reset action runs from any state,
every boolean flag is false while `textContent` and `textColor` hold
exactly the values they had before. -/
theorem reset_postcondition (s : ToggleState) :
    (step s Event.reset).1.text = false ∧
    (step s Event.reset).1.square = false ∧
    (step s Event.reset).1.toon = false ∧
    (step s Event.reset).1.sepia = false ∧
    (step s Event.reset).1.gray = false ∧
    (step s Event.reset).1.video = false ∧
    (step s Event.reset).1.enhance = false ∧
    (step s Event.reset).1.textContent = s.textContent ∧
    (step s Event.reset).1.textColor = s.textColor := by
  simp [step, resetToggles]

/-- State after clicking `square` from the defaults. -/
def scenario1 : ToggleState := clickFlag Flag.square initialState

/-- State after then clicking `video`. -/
def scenario2 : ToggleState := clickFlag Flag.video scenario1

/-- State after then clicking `sepia`. -/
def scenario3 : ToggleState := clickFlag Flag.sepia scenario2

/-- C7. Three-click scenario from the defaults: clicking `square` gives
an image descriptor on the (333,333) frame; then clicking `video` gives
a video descriptor, still on the (333,333) frame; then clicking `sepia`
turns `video` off, turns `sepia` on, and the built step list contains
exactly one effect entry, `sepia`. -/
theorem three_click_scenario :
    (buildAsset scenario1).type = "image" ∧
    frameOf scenario1 = Frame.mk 333 333 ∧
    (buildAsset scenario1).width = 333 ∧
    (buildAsset scenario2).type = "video" ∧
    frameOf scenario2 = Frame.mk 333 333 ∧
    (buildAsset scenario2).width = 333 ∧
    scenario3.video = false ∧
    scenario3.sepia = true ∧
    (buildSteps scenario3).filter isEffectInstr = [Instr.effect "sepia"] := by
  refine ⟨rfl, rfl, rfl, rfl, rfl, rfl, rfl, rfl, rfl⟩

/-- C8. Cancellation atomicity: when `state.text` is false and the text
click's dialog resolves to null (cancel or any other dismissal), the
state is returned unchanged — text flag, textContent and textColor
included — and no rebuild+render cycle runs. -/
theorem cancel_text_dialog (s : ToggleState) (h : s.text = false) :
    step s (Event.textClick none) = (s, false) := by
  simp [step, clickText, h]

/-- C8 witness: cancelling from the initial state. -/
theorem cancel_text_dialog_witness :
    initialState.text = false ∧
    step initialState (Event.textClick none) = (initialState, false) :=
  ⟨rfl, cancel_text_dialog initialState rfl⟩

/-- C9. The two exclusivity rules commute for every clicked flag, new
value and state, and applying the enforcement (both rules in source
order) twice gives the same state as applying it once. -/
theorem exclusivity_symmetric_idempotent (k : Flag) (next : Bool) (s : ToggleState) :
    applyEffectExclusivity k next (applyVideoExclusivity k next s) =
      applyVideoExclusivity k next (applyEffectExclusivity k next s) ∧
    applyEffectExclusivity k next (applyVideoExclusivity k next
        (applyEffectExclusivity k next (applyVideoExclusivity k next s))) =
      applyEffectExclusivity k next (applyVideoExclusivity k next s) := by
  obtain ⟨t, sq, tn, sp, gr, vd, en, tc, tcol⟩ := s
  cases k <;> cases next <;>
    simp [applyVideoExclusivity, applyEffectExclusivity]

/-- C10. Confirming the text dialog with text that trims to the empty
string preserves the saved `textContent` (the empty string is falsy, so
the assignment is skipped) while `state.text` still flips to true; an
empty returned colour likewise leaves `textColor` unchanged.  The
rebuild+render cycle does run. -/
theorem empty_dialog_preserves (s : ToggleState) (raw c : String)
    (h : s.text = false) (htrim : strTrim raw = "") :
    (clickText s (some (confirmDialog raw c))).1.textContent = s.textContent ∧
    (clickText s (some (confirmDialog raw c))).1.text = true ∧
    (c = "" → (clickText s (some (confirmDialog raw c))).1.textColor = s.textColor) ∧
    (clickText s (some (confirmDialog raw c))).2 = true := by
  simp only [clickText, confirmDialog, h, htrim]
  by_cases hc : c = "" <;> simp [hc]

/-- C10 witness: confirming with whitespace-only text and an empty
colour from the initial state keeps both saved values. -/
theorem empty_dialog_preserves_witness :
    initialState.text = false ∧ strTrim " " = "" ∧
    (clickText initialState (some (confirmDialog " " ""))).1.textContent =
      initialState.textContent ∧
    (clickText initialState (some (confirmDialog " " ""))).1.text = true ∧
    (clickText initialState (some (confirmDialog " " ""))).1.textColor =
      initialState.textColor := by
  have h := empty_dialog_preserves initialState " " "" rfl rfl
  exact ⟨rfl, rfl, h.1, h.2.1, h.2.2.1 rfl⟩

end CloudinaryDemo
